import Mathlib

/-!
Verification development for the Saiblo ant-war C++ SDK.
The definitions below are a shallow embedding of the game core:
machine integers become ℤ (coordinates, HP, coins, ids), the C++
doubles used for pheromone, tower speed and price arithmetic become ℚ
with explicit truncation where the source converts back to int, and
the per-round mutation of the world state becomes explicit state
passing over a GameInfo record.
-/

namespace AntWar

/- Global round cap. -/
def MAX_ROUND : ℤ := 512

/- Map geometry constants. -/
def EDGE : ℤ := 10

def MAP_SIZE : ℤ := 19

/- Static point classification table, row by row from the source.
Values: -1 void, 0 path, 1 barrier, 2 player-0 highland, 3 player-1 highland. -/
def MAP_PROPERTY : List (List ℤ) := [
  [-1, -1, -1, -1, -1, -1, -1, -1, 0, 1, 0, -1, -1, -1, -1, -1, -1, -1, -1],
  [-1, -1, -1, -1, -1, -1, 0, 0, 1, 0, 1, 0, 0, -1, -1, -1, -1, -1, -1],
  [-1, -1, -1, -1, 0, 0, 0, 1, 1, 0, 1, 1, 0, 0, 0, -1, -1, -1, -1],
  [-1, -1, 0, 0, 0, 1, 1, 0, 0, 0, 0, 0, 1, 1, 0, 0, 0, -1, -1],
  [0, 0, 2, 2, 0, 1, 0, 0, 0, 2, 0, 0, 0, 1, 0, 2, 2, 0, 0],
  [0, 0, 0, 2, 0, 0, 2, 2, 0, 2, 0, 2, 2, 0, 0, 2, 0, 0, 0],
  [0, 2, 2, 0, 2, 0, 0, 2, 0, 2, 0, 2, 0, 0, 2, 0, 2, 2, 0],
  [0, 2, 0, 0, 0, 2, 0, 0, 2, 0, 2, 0, 0, 2, 0, 0, 0, 2, 0],
  [0, 0, 2, 0, 2, 0, 0, 2, 0, 0, 0, 2, 0, 0, 2, 0, 2, 0, 0],
  [0, 1, 3, 0, 3, 1, 0, 1, 0, 1, 0, 1, 0, 1, 3, 0, 3, 1, 0],
  [0, 0, 0, 0, 0, 0, 0, 3, 3, 0, 3, 3, 0, 0, 0, 0, 0, 0, 0],
  [0, 3, 3, 0, 3, 3, 0, 0, 0, 0, 0, 0, 0, 3, 3, 0, 3, 3, 0],
  [0, 3, 0, 0, 0, 0, 3, 3, 0, 3, 0, 3, 3, 0, 0, 0, 0, 3, 0],
  [0, 0, 3, 3, 0, 0, 0, 3, 0, 3, 0, 3, 0, 0, 0, 3, 3, 0, 0],
  [-1, 0, 0, 3, 0, 1, 1, 0, 0, 3, 0, 0, 1, 1, 0, 3, 0, 0, -1],
  [-1, -1, -1, 0, 0, 1, 0, 0, 1, 0, 1, 0, 0, 1, 0, 0, -1, -1, -1],
  [-1, -1, -1, -1, -1, 0, 0, 1, 1, 0, 1, 1, 0, 0, -1, -1, -1, -1, -1],
  [-1, -1, -1, -1, -1, -1, -1, 0, 0, 0, 0, 0, -1, -1, -1, -1, -1, -1, -1],
  [-1, -1, -1, -1, -1, -1, -1, -1, -1, 1, -1, -1, -1, -1, -1, -1, -1, -1, -1]]

/- Table lookup with the bound checks the callers perform in the source;
out-of-range cells read as void. -/
def map_property (x y : ℤ) : ℤ :=
  if 0 ≤ x ∧ x < MAP_SIZE ∧ 0 ≤ y ∧ y < MAP_SIZE then
    (MAP_PROPERTY.getD x.toNat []).getD y.toNat (-1)
  else -1

/- The six neighbor offsets; the first index is the row parity of the
starting cell (y mod 2), the second the direction index 0..5.
Direction indices above 5 are never used by the source. -/
def OFFSET (par : ℤ) (i : ℕ) : ℤ × ℤ :=
  if par = 0 then
    match i with
    | 0 => (0, 1) | 1 => (-1, 0) | 2 => (0, -1) | 3 => (1, -1) | 4 => (1, 0) | _ => (1, 1)
  else
    match i with
    | 0 => (-1, 1) | 1 => (-1, 0) | 2 => (-1, -1) | 3 => (0, -1) | 4 => (1, 0) | _ => (0, 1)

/- Hex-grid metric of the source, written with natAbs casts for the abs
calls and ℤ ediv for the nonnegative divisions. -/
def distance (x0 y0 x1 y1 : ℤ) : ℤ :=
  (if ((y0 - y1).natAbs : ℤ) % 2 ≠ 0 then
    if x0 > x1 then
      max 0 (((x0 - x1).natAbs : ℤ) - ((y0 - y1).natAbs : ℤ) / 2 - y0 % 2)
    else
      max 0 (((x0 - x1).natAbs : ℤ) - ((y0 - y1).natAbs : ℤ) / 2 - (1 - y0 % 2))
  else max 0 (((x0 - x1).natAbs : ℤ) - ((y0 - y1).natAbs : ℤ) / 2))
  + ((y0 - y1).natAbs : ℤ)

def is_valid_pos (x y : ℤ) : Bool :=
  if x < 0 ∨ MAP_SIZE ≤ x ∨ y < 0 ∨ MAP_SIZE ≤ y then false
  else decide (map_property x y ≠ -1)

def is_path (x y : ℤ) : Bool :=
  if x < 0 ∨ MAP_SIZE ≤ x ∨ y < 0 ∨ MAP_SIZE ≤ y then false
  else decide (map_property x y = 0)

def is_highland (player : ℕ) (x y : ℤ) : Bool :=
  if x < 0 ∨ MAP_SIZE ≤ x ∨ y < 0 ∨ MAP_SIZE ≤ y then false
  else decide (map_property x y = if player = 0 then 2 else 3)

/- Adjacency-to-direction mapping: the index of the offset matching the
difference of the two cells, or -1. The loop of the source is unrolled. -/
def get_direction (x0 y0 x1 y1 : ℤ) : ℤ :=
  if (OFFSET (y0 % 2) 0).1 = x1 - x0 ∧ (OFFSET (y0 % 2) 0).2 = y1 - y0 then 0
  else if (OFFSET (y0 % 2) 1).1 = x1 - x0 ∧ (OFFSET (y0 % 2) 1).2 = y1 - y0 then 1
  else if (OFFSET (y0 % 2) 2).1 = x1 - x0 ∧ (OFFSET (y0 % 2) 2).2 = y1 - y0 then 2
  else if (OFFSET (y0 % 2) 3).1 = x1 - x0 ∧ (OFFSET (y0 % 2) 3).2 = y1 - y0 then 3
  else if (OFFSET (y0 % 2) 4).1 = x1 - x0 ∧ (OFFSET (y0 % 2) 4).2 = y1 - y0 then 4
  else if (OFFSET (y0 % 2) 5).1 = x1 - x0 ∧ (OFFSET (y0 % 2) 5).2 = y1 - y0 then 5
  else -1

/- Economy constants. -/
def COIN_INIT : ℤ := 50

def BASIC_INCOME : ℤ := 1

def TOWER_BUILD_PRICE_BASE : ℤ := 15

def TOWER_BUILD_PRICE_RATE : ℤ := 2

def LEVEL2_TOWER_UPGRADE_PRICE : ℤ := 60

def LEVEL3_TOWER_UPGRADE_PRICE : ℤ := 200

/- The 0.8 refund factor of the source. -/
def TOWER_DOWNGRADE_REFUND : ℚ := mkRat 4 5

def LEVEL2_BASE_UPGRADE_PRICE : ℤ := 200

def LEVEL3_BASE_UPGRADE_PRICE : ℤ := 250

/- Pheromone constants; the decay constant is the 0.97 retention factor. -/
def PHEROMONE_INIT : ℚ := 10

def PHEROMONE_MIN : ℚ := 0

def PHEROMONE_DECAY : ℚ := mkRat 97 100

/- Life-cycle state of an ant. -/
inductive AntState where
  | Alive
  | Success
  | Fail
  | TooOld
  | Frozen
deriving DecidableEq, BEq, Repr

/- The integer value of an AntState, used to index the TAU table. -/
def AntState.code : AntState → ℤ
  | .Alive => 0
  | .Success => 1
  | .Fail => 2
  | .TooOld => 3
  | .Frozen => 4

/- Mobile attacking unit. -/
structure Ant where
  id : ℤ
  player : ℕ
  x : ℤ
  y : ℤ
  hp : ℤ
  level : ℕ
  age : ℤ
  state : AntState
  path : List ℕ := []
  evasion : ℤ := 0
  deflector : Bool := false
deriving DecidableEq, Repr

instance : Inhabited Ant := ⟨⟨0, 0, 0, 0, 0, 0, 0, .Alive, [], 0, false⟩⟩

def AGE_LIMIT : ℤ := 32

def MAX_HP_INFO (level : ℕ) : ℤ := [10, 25, 50].getD level 0

def REWARD_INFO (level : ℕ) : ℤ := [3, 5, 7].getD level 0

/- Move one step in a direction: record the direction, then shift the
position by the offset for the current row parity. -/
def Ant.move (a : Ant) (direction : ℕ) : Ant :=
  { a with
    path := a.path ++ [direction],
    x := a.x + (OFFSET (a.y % 2) direction).1,
    y := a.y + (OFFSET (a.y % 2) direction).2 }

def Ant.max_hp (a : Ant) : ℤ := MAX_HP_INFO a.level

def Ant.reward (a : Ant) : ℤ := REWARD_INFO a.level

def Ant.is_alive (a : Ant) : Bool :=
  a.state == AntState.Alive || a.state == AntState.Frozen

def Ant.is_in_range (a : Ant) (x y range : ℤ) : Bool :=
  distance a.x a.y x y ≤ range

def Ant.is_attackable_from (a : Ant) (player : ℕ) (x y range : ℤ) : Bool :=
  a.player ≠ player && a.is_alive && a.is_in_range x y range

/- The closed enumeration of tower types. -/
inductive TowerType where
  | Basic
  | Heavy
  | HeavyPlus
  | Ice
  | Cannon
  | Quick
  | QuickPlus
  | Double
  | Sniper
  | Mortar
  | MortarPlus
  | Pulse
  | Missile
deriving DecidableEq, BEq, Repr

/- Integer value of a tower type in the source enumeration. -/
def TowerType.code : TowerType → ℤ
  | .Basic => 0
  | .Heavy => 1
  | .HeavyPlus => 11
  | .Ice => 12
  | .Cannon => 13
  | .Quick => 2
  | .QuickPlus => 21
  | .Double => 22
  | .Sniper => 23
  | .Mortar => 3
  | .MortarPlus => 31
  | .Pulse => 32
  | .Missile => 33

/- Inverse of TowerType.code on the valid codes; the source static_casts
arbitrary ints, which is undefined outside the enumeration, so any other
code maps to Basic here. -/
def towerTypeOfCode (c : ℤ) : TowerType :=
  if c = 0 then .Basic
  else if c = 1 then .Heavy
  else if c = 11 then .HeavyPlus
  else if c = 12 then .Ice
  else if c = 13 then .Cannon
  else if c = 2 then .Quick
  else if c = 21 then .QuickPlus
  else if c = 22 then .Double
  else if c = 23 then .Sniper
  else if c = 3 then .Mortar
  else if c = 31 then .MortarPlus
  else if c = 32 then .Pulse
  else if c = 33 then .Missile
  else .Basic

/- Static stats of a tower type: damage, attack cycle length, range. -/
structure TowerStats where
  attack : ℤ
  speed : ℚ
  range : ℤ
deriving DecidableEq, Repr

def TOWER_INFO : TowerType → TowerStats
  | .Basic => ⟨5, 2, 2⟩
  | .Heavy => ⟨15, 2, 2⟩
  | .Quick => ⟨6, 1, 3⟩
  | .Mortar => ⟨16, 4, 3⟩
  | .HeavyPlus => ⟨35, 2, 2⟩
  | .Ice => ⟨15, 2, 2⟩
  | .Cannon => ⟨50, 4, 3⟩
  | .QuickPlus => ⟨8, mkRat 1 2, 3⟩
  | .Double => ⟨10, 1, 4⟩
  | .Sniper => ⟨13, 2, 6⟩
  | .MortarPlus => ⟨35, 4, 4⟩
  | .Pulse => ⟨30, 3, 2⟩
  | .Missile => ⟨45, 6, 5⟩

/- Stationary defense unit. -/
structure Tower where
  id : ℤ
  player : ℕ
  x : ℤ
  y : ℤ
  type : TowerType
  damage : ℤ
  range : ℤ
  cd : ℤ
  speed : ℚ
deriving DecidableEq, Repr

instance : Inhabited Tower :=
  ⟨⟨0, 0, 0, 0, .Basic, 5, 2, 0, 2⟩⟩

/- Truncation toward zero, the double-to-int conversion of C++. -/
def ratTrunc (q : ℚ) : ℤ := q.num.tdiv q.den

/- Iterated product and integer power on ℚ, standing in for the pow
call of the source. -/
def powQ (q : ℚ) : ℕ → ℚ
  | 0 => 1
  | n + 1 => q * powQ q n

def zpowQ (q : ℚ) (n : ℤ) : ℚ :=
  if 0 ≤ n then powQ q n.toNat else Rat.div 1 (powQ q (-n).toNat)

/- The CD value written by reset_cd: the speed truncated to int when the
speed exceeds one round, else 1. -/
def resetCdValue (speed : ℚ) : ℤ :=
  if speed > 1 then ratTrunc speed else 1

def Tower.reset_cd (t : Tower) : Tower :=
  { t with cd := resetCdValue t.speed }

/- Rewrite type and derived stats, then reset CD, without validity checks. -/
def Tower.upgrade (t : Tower) (new_type : TowerType) : Tower :=
  let s := TOWER_INFO new_type
  Tower.reset_cd
    { t with type := new_type, damage := s.attack, speed := s.speed, range := s.range }

/- The constructor of the source: it stores the given cd and then calls
upgrade, which overwrites cd with the reset value. -/
def mkTower (id : ℤ) (player : ℕ) (x y : ℤ)
    (type : TowerType := .Basic) (cd : ℤ := 0) : Tower :=
  Tower.upgrade ⟨id, player, x, y, type, 0, 0, cd, 0⟩ type

/- Upgrade-tree check; the argument is the raw int of the target type. -/
def Tower.is_upgrade_type_valid (t : Tower) (ty : ℤ) : Bool :=
  if ty < 0 ∨ 33 < ty then false
  else
    match t.type with
    | .Basic => ty = 1 ∨ ty = 2 ∨ ty = 3
    | .Heavy => ty = 11 ∨ ty = 12 ∨ ty = 13
    | .Quick => ty = 21 ∨ ty = 22 ∨ ty = 23
    | .Mortar => ty = 31 ∨ ty = 32 ∨ ty = 33
    | _ => false

/- Move one step up the tree: integer division of the code by ten. -/
def Tower.downgrade (t : Tower) : Tower :=
  let new_type := towerTypeOfCode (t.type.code / 10)
  let s := TOWER_INFO new_type
  Tower.reset_cd
    { t with type := new_type, damage := s.attack, speed := s.speed, range := s.range }

def Tower.is_downgrade_valid (t : Tower) : Bool :=
  t.type ≠ TowerType.Basic

/- Damage application to one ant: an evasion charge negates the hit and
is consumed; otherwise the deflector negates damage below half the max
HP; otherwise HP drops, Ice freezes, and nonpositive HP means Fail. -/
def Tower.action (t : Tower) (a : Ant) : Ant :=
  if a.evasion > 0 then { a with evasion := a.evasion - 1 }
  else if a.deflector ∧ t.damage < a.max_hp / 2 then a
  else
    let a1 := { a with hp := a.hp - t.damage }
    let a2 := if t.type = TowerType.Ice then { a1 with state := AntState.Frozen } else a1
    if a2.hp ≤ 0 then { a2 with state := AntState.Fail } else a2

/- Target of the game: one base per player. -/
structure Base where
  player : ℕ
  x : ℤ
  y : ℤ
  hp : ℤ
  gen_speed_level : ℕ
  ant_level : ℕ
deriving DecidableEq, Repr

def BASE_MAX_HP : ℤ := 50

def basePosition (player : ℕ) : ℤ × ℤ :=
  if player = 0 then (2, EDGE - 1) else ((MAP_SIZE - 1) - 2, EDGE - 1)

def GENERATION_CYCLE_INFO (level : ℕ) : ℤ := [4, 2, 1].getD level 1

def Base.init (player : ℕ) : Base :=
  ⟨player, (basePosition player).1, (basePosition player).2, BASE_MAX_HP, 0, 0⟩

/- Spawn attempt: an ant appears when the round is divisible by the
generation cycle for the current speed level. -/
def Base.generate_ant (b : Base) (id : ℤ) (round : ℤ) : Option Ant :=
  if round % GENERATION_CYCLE_INFO b.gen_speed_level = 0 then
    some ⟨id, b.player, b.x, b.y, MAX_HP_INFO b.ant_level, b.ant_level, 0, .Alive, [], 0, false⟩
  else none

inductive SuperWeaponType where
  | LightningStorm
  | EmpBlaster
  | Deflector
  | EmergencyEvasion
deriving DecidableEq, BEq, Repr

def SuperWeaponType.code : SuperWeaponType → ℤ
  | .LightningStorm => 1
  | .EmpBlaster => 2
  | .Deflector => 3
  | .EmergencyEvasion => 4

/- Static data per weapon type: duration, range, cooldown, price.
The source table is indexed by the raw int code; index 0 is a zero row. -/
def SUPER_WEAPON_INFO (c : ℤ) : ℤ × ℤ × ℤ × ℤ :=
  if c = 1 then (20, 3, 100, 150)
  else if c = 2 then (20, 3, 100, 150)
  else if c = 3 then (10, 3, 50, 100)
  else if c = 4 then (1, 3, 50, 100)
  else (0, 0, 0, 0)

structure SuperWeapon where
  type : SuperWeaponType
  player : ℕ
  x : ℤ
  y : ℤ
  left_time : ℤ
  range : ℤ
deriving DecidableEq, Repr

def mkSuperWeapon (type : SuperWeaponType) (player : ℕ) (x y : ℤ) : SuperWeapon :=
  ⟨type, player, x, y, (SUPER_WEAPON_INFO type.code).1, (SUPER_WEAPON_INFO type.code).2.1⟩

def SuperWeapon.is_in_range (w : SuperWeapon) (x y : ℤ) : Bool :=
  distance x y w.x w.y ≤ w.range

inductive OperationType where
  | BuildTower
  | UpgradeTower
  | DowngradeTower
  | UseLightningStorm
  | UseEmpBlaster
  | UseDeflector
  | UseEmergencyEvasion
  | UpgradeGenerationSpeed
  | UpgradeGeneratedAnt
deriving DecidableEq, BEq, Repr

def OperationType.code : OperationType → ℤ
  | .BuildTower => 11
  | .UpgradeTower => 12
  | .DowngradeTower => 13
  | .UseLightningStorm => 21
  | .UseEmpBlaster => 22
  | .UseDeflector => 23
  | .UseEmergencyEvasion => 24
  | .UpgradeGenerationSpeed => 31
  | .UpgradeGeneratedAnt => 32

/- The weapon type addressed by a use-weapon operation: the source keys
the static tables by the op code modulo ten. -/
def weaponOfCode (c : ℤ) : SuperWeaponType :=
  if c = 1 then .LightningStorm
  else if c = 2 then .EmpBlaster
  else if c = 3 then .Deflector
  else .EmergencyEvasion

structure Operation where
  type : OperationType
  arg0 : ℤ := -1
  arg1 : ℤ := -1
deriving DecidableEq, Repr

/- Insertion sort over index lists by a strict comparator; with the
total strict orders used below this computes the same permutation as
the partial_sort / sort calls of the source. -/
def insertIdx (lt : ℕ → ℕ → Bool) (a : ℕ) : List ℕ → List ℕ
  | [] => [a]
  | b :: bs => if lt a b then a :: b :: bs else b :: insertIdx lt a bs

def sortIdx (lt : ℕ → ℕ → Bool) : List ℕ → List ℕ
  | [] => []
  | a :: as => insertIdx lt a (sortIdx lt as)

/- Remove consecutive duplicates of a sorted list, as the unique call
of the source does. -/
def dedupAdj : List ℕ → List ℕ
  | [] => []
  | [a] => [a]
  | a :: b :: rest => if a = b then dedupAdj (b :: rest) else a :: dedupAdj (b :: rest)

/- Indices of all ants attackable by the given player from a position
and range, in entry order. -/
def get_attackable_ants (ants : List Ant) (player : ℕ) (x y range : ℤ) : List ℕ :=
  (List.range ants.length).filter
    (fun i => (ants.getD i default).is_attackable_from player x y range)

/- The targeting comparator: nearest distance first, then entry order. -/
def targetLt (ants : List Ant) (x y : ℤ) (i j : ℕ) : Bool :=
  let d1 := distance (ants.getD i default).x (ants.getD i default).y x y
  let d2 := distance (ants.getD j default).x (ants.getD j default).y x y
  if d1 ≠ d2 then d1 < d2 else i < j

def Tower.find_targets (t : Tower) (ants : List Ant) (target_num : ℕ) : List ℕ :=
  (sortIdx (targetLt ants t.x t.y) (get_attackable_ants ants t.player t.x t.y t.range)).take
    target_num

/- Expand the selected targets into the full affected set for the tower
category: splash radius 1 around the target for mortar-class towers, a
tower-centered pulse of full range, radius 2 for the missile, and the
bare target otherwise. -/
def Tower.find_attackable (t : Tower) (ants : List Ant) (target_idxs : List ℕ) : List ℕ :=
  (target_idxs.map (fun idx =>
    match t.type with
    | .Mortar => get_attackable_ants ants t.player (ants.getD idx default).x
        (ants.getD idx default).y 1
    | .MortarPlus => get_attackable_ants ants t.player (ants.getD idx default).x
        (ants.getD idx default).y 1
    | .Pulse => get_attackable_ants ants t.player t.x t.y t.range
    | .Missile => get_attackable_ants ants t.player (ants.getD idx default).x
        (ants.getD idx default).y 2
    | _ => [idx])).flatten

/- One target search plus the sequential damage application of its
affected set. -/
def attackOnce (t : Tower) (ants : List Ant) : List Ant × List ℕ :=
  let target_num : ℕ := if t.type = TowerType.Double then 2 else 1
  let target_idxs := t.find_targets ants target_num
  let attackable_idxs := t.find_attackable ants target_idxs
  (attackable_idxs.foldl (fun acc idx => acc.set idx (t.action (acc.getD idx default))) ants,
   attackable_idxs)

/- The attempt loop: fast towers search more than once per round, each
attempt seeing the ants as mutated by the previous one. -/
def attackAttempts (t : Tower) : ℕ → List Ant → List ℕ → List Ant × List ℕ
  | 0, ants, acc => (ants, acc)
  | n + 1, ants, acc =>
    attackAttempts t n (attackOnce t ants).1 (acc ++ (attackOnce t ants).2)

/- Full per-round attack of one tower: count down CD, and when it has
elapsed run the attempts, return the deduplicated hit set, and reset CD
exactly when that set is nonempty. -/
def Tower.attack (t : Tower) (ants : List Ant) : List ℕ × Tower × List Ant :=
  if max (t.cd - 1) 0 ≤ 0 then
    let time : ℕ := if t.speed ≥ 1 then 1 else (ratTrunc (Rat.div 1 t.speed)).toNat
    let run := attackAttempts t time ants []
    let attacked_idxs := dedupAdj (sortIdx (fun i j => decide (i < j)) run.2)
    if attacked_idxs.isEmpty then (attacked_idxs, { t with cd := max (t.cd - 1) 0 }, run.1)
    else (attacked_idxs, Tower.reset_cd { t with cd := max (t.cd - 1) 0 }, run.1)
  else ([], { t with cd := max (t.cd - 1) 0 }, ants)

/- Aggregate world state. -/
structure GameInfo where
  round : ℤ
  towers : List Tower
  ants : List Ant
  base0 : Base
  base1 : Base
  coin0 : ℤ
  coin1 : ℤ
  pheromone : ℕ → ℤ → ℤ → ℚ
  super_weapons : List SuperWeapon
  super_weapon_cd : ℕ → ℤ → ℤ
  next_ant_id : ℤ
  next_tower_id : ℤ

def GameInfo.coins (g : GameInfo) (player : ℕ) : ℤ :=
  if player = 0 then g.coin0 else g.coin1

def GameInfo.bases (g : GameInfo) (player : ℕ) : Base :=
  if player = 0 then g.base0 else g.base1

def GameInfo.update_coin (g : GameInfo) (player : ℕ) (change : ℤ) : GameInfo :=
  if player = 0 then { g with coin0 := g.coin0 + change }
  else { g with coin1 := g.coin1 + change }

def GameInfo.update_base_hp (g : GameInfo) (player : ℕ) (change : ℤ) : GameInfo :=
  if player = 0 then { g with base0 := { g.base0 with hp := g.base0.hp + change } }
  else { g with base1 := { g.base1 with hp := g.base1.hp + change } }

def GameInfo.tower_at (g : GameInfo) (x y : ℤ) : Option Tower :=
  g.towers.find? (fun t => t.x = x ∧ t.y = y)

def GameInfo.tower_of_id (g : GameInfo) (id : ℤ) : Option Tower :=
  g.towers.find? (fun t => t.id = id)

def GameInfo.tower_num_of_player (g : GameInfo) (player : ℕ) : ℤ :=
  ((g.towers.filter (fun t => t.player = player)).length : ℤ)

/- Upgrade the first tower of the given id in place. -/
def upgradeTowerList (id : ℤ) (ty : TowerType) : List Tower → List Tower
  | [] => []
  | t :: ts => if t.id = id then t.upgrade ty :: ts else t :: upgradeTowerList id ty ts

/- Downgrade the first tower of the given id, or erase it when it is
already at the root type. -/
def downgradeTowerList (id : ℤ) : List Tower → List Tower
  | [] => []
  | t :: ts =>
    if t.id = id then (if t.is_downgrade_valid then t.downgrade :: ts else ts)
    else t :: downgradeTowerList id ts

def GameInfo.clear_dead_and_succeeded_ants (g : GameInfo) : GameInfo :=
  { g with ants := g.ants.filter (fun a =>
      ¬(a.state = AntState.Success ∨ a.state = AntState.Fail ∨ a.state = AntState.TooOld)) }

/- Int-valued scent delta per terminal state, from the TAU table. -/
def TAU (c : ℤ) : ℤ :=
  if c = 0 then 0 else if c = 1 then 10 else if c = 2 then -5 else if c = 3 then -3 else 0

/- Deposit a delta at one cell of one scent layer, floored at the minimum. -/
def depositPheromone (f : ℕ → ℤ → ℤ → ℚ) (player : ℕ) (x y : ℤ) (tau : ℚ) :
    ℕ → ℤ → ℤ → ℚ :=
  fun q a b =>
    if q = player ∧ a = x ∧ b = y then
      (if f player x y + tau < PHEROMONE_MIN then PHEROMONE_MIN else f player x y + tau)
    else f q a b

/- Walk a recorded path from the start cell, adjusting each cell at most
once (first visit wins). Returns the adjusted field, the final position
and the visited set. -/
def pheroWalk (player : ℕ) (tau : ℚ) :
    List ℕ → ℤ → ℤ → List (ℤ × ℤ) → (ℕ → ℤ → ℤ → ℚ) →
    (ℕ → ℤ → ℤ → ℚ) × ℤ × ℤ × List (ℤ × ℤ)
  | [], x, y, vis, f => (f, x, y, vis)
  | m :: ms, x, y, vis, f =>
    let f1 := if (x, y) ∈ vis then f else depositPheromone f player x y tau
    let vis1 := if (x, y) ∈ vis then vis else (x, y) :: vis
    pheroWalk player tau ms (x + (OFFSET (y % 2) m).1) (y + (OFFSET (y % 2) m).2) vis1 f1

/- Per-ant scent update: nothing for living ants; for a terminal ant,
walk its path from its own base and include the final cell if new. -/
def GameInfo.update_pheromone (g : GameInfo) (a : Ant) : GameInfo :=
  if a.state = AntState.Alive ∨ a.state = AntState.Frozen then g
  else
    let tau : ℚ := (TAU a.state.code : ℤ)
    let start := basePosition a.player
    let r := pheroWalk a.player tau a.path start.1 start.2 [] g.pheromone
    let f := r.1
    let x := r.2.1
    let y := r.2.2.1
    let vis := r.2.2.2
    { g with pheromone := if (x, y) ∈ vis then f else depositPheromone f a.player x y tau }

def GameInfo.update_pheromone_for_ants (g : GameInfo) : GameInfo :=
  g.ants.foldl (fun acc a => acc.update_pheromone a) g

/- Global decay of every board cell of both layers toward the baseline. -/
def attenuate (v : ℚ) : ℚ :=
  PHEROMONE_DECAY * v + (1 - PHEROMONE_DECAY) * PHEROMONE_INIT

def GameInfo.global_pheromone_attenuation (g : GameInfo) : GameInfo :=
  { g with pheromone := fun q x y =>
      if q < 2 ∧ 0 ≤ x ∧ x < MAP_SIZE ∧ 0 ≤ y ∧ y < MAP_SIZE then
        attenuate (g.pheromone q x y)
      else g.pheromone q x y }

/- Shield queries. -/
def GameInfo.is_shielded_by_emp (g : GameInfo) (player : ℕ) (x y : ℤ) : Bool :=
  g.super_weapons.any (fun w =>
    w.type = SuperWeaponType.EmpBlaster ∧ w.player ≠ player ∧ w.is_in_range x y)

def GameInfo.is_shielded_by_deflector (g : GameInfo) (a : Ant) : Bool :=
  g.super_weapons.any (fun w =>
    w.type = SuperWeaponType.Deflector ∧ w.player = a.player ∧ w.is_in_range a.x a.y)

/- Per-op preconditions, ignoring coins and same-round duplicates. -/
def GameInfo.is_operation_valid (g : GameInfo) (player : ℕ) (op : Operation) : Bool :=
  match op.type with
  | .BuildTower =>
    is_highland player op.arg0 op.arg1 && (g.tower_at op.arg0 op.arg1).isNone
      && !g.is_shielded_by_emp player op.arg0 op.arg1
  | .UpgradeTower =>
    match g.tower_of_id op.arg0 with
    | none => false
    | some t =>
      t.player = player && t.is_upgrade_type_valid op.arg1
        && !g.is_shielded_by_emp t.player t.x t.y
  | .DowngradeTower =>
    match g.tower_of_id op.arg0 with
    | none => false
    | some t => t.player = player && !g.is_shielded_by_emp t.player t.x t.y
  | .UseLightningStorm | .UseEmpBlaster | .UseDeflector | .UseEmergencyEvasion =>
    is_valid_pos op.arg0 op.arg1 && g.super_weapon_cd player (op.type.code % 10) ≤ 0
  | .UpgradeGenerationSpeed => (g.bases player).gen_speed_level < 2
  | .UpgradeGeneratedAnt => (g.bases player).ant_level < 2

/- Cost calculators; the source computes prices in double and converts
back to int, which truncates toward zero. -/
def build_tower_cost (tower_num : ℤ) : ℤ :=
  ratTrunc ((TOWER_BUILD_PRICE_BASE : ℚ) * zpowQ (TOWER_BUILD_PRICE_RATE : ℚ) tower_num)

def destroy_tower_income (tower_num : ℤ) : ℤ :=
  ratTrunc ((build_tower_cost (tower_num - 1) : ℚ) * TOWER_DOWNGRADE_REFUND)

def upgrade_tower_cost (ty : ℤ) : ℤ :=
  if ty = 1 ∨ ty = 2 ∨ ty = 3 then LEVEL2_TOWER_UPGRADE_PRICE
  else if ty = 11 ∨ ty = 12 ∨ ty = 13 ∨ ty = 21 ∨ ty = 22 ∨ ty = 23
      ∨ ty = 31 ∨ ty = 32 ∨ ty = 33 then LEVEL3_TOWER_UPGRADE_PRICE
  else -1

def downgrade_tower_income (ty : ℤ) : ℤ :=
  ratTrunc ((upgrade_tower_cost ty : ℚ) * TOWER_DOWNGRADE_REFUND)

def upgrade_base_cost (level : ℕ) : ℤ :=
  if level = 0 then LEVEL2_BASE_UPGRADE_PRICE
  else if level = 1 then LEVEL3_BASE_UPGRADE_PRICE
  else -1

def use_super_weapon_cost (c : ℤ) : ℤ := (SUPER_WEAPON_INFO c).2.2.2

/- Income (negated cost) of one operation against the current state. -/
def GameInfo.get_operation_income (g : GameInfo) (player : ℕ) (op : Operation) : ℤ :=
  match op.type with
  | .BuildTower => -build_tower_cost (g.tower_num_of_player player)
  | .UpgradeTower => -upgrade_tower_cost op.arg1
  | .DowngradeTower =>
    let t := (g.tower_of_id op.arg0).getD default
    if t.type = TowerType.Basic then destroy_tower_income (g.tower_num_of_player player)
    else downgrade_tower_income t.type.code
  | .UseLightningStorm | .UseEmpBlaster | .UseDeflector | .UseEmergencyEvasion =>
    -use_super_weapon_cost (op.type.code % 10)
  | .UpgradeGenerationSpeed => -upgrade_base_cost (g.bases player).gen_speed_level
  | .UpgradeGeneratedAnt => -upgrade_base_cost (g.bases player).ant_level

/- The affordability fold: builds and Basic-tower downgrades are charged
or credited against a running tower count, everything else by its income
against the unchanged state. -/
def affordGo (g : GameInfo) (player : ℕ) : ℤ → ℤ → List Operation → ℤ
  | income, _, [] => income
  | income, tower_num, op :: rest =>
    match op.type with
    | .BuildTower => affordGo g player (income - build_tower_cost tower_num) (tower_num + 1) rest
    | .DowngradeTower =>
      let t := (g.tower_of_id op.arg0).getD default
      if t.type = TowerType.Basic then
        affordGo g player (income + destroy_tower_income tower_num) (tower_num - 1) rest
      else affordGo g player (income + downgrade_tower_income t.type.code) tower_num rest
    | _ => affordGo g player (income + g.get_operation_income player op) tower_num rest

def GameInfo.check_affordable (g : GameInfo) (player : ℕ) (ops : List Operation) : Bool :=
  0 ≤ affordGo g player 0 (g.tower_num_of_player player) ops + g.coins player

/- Start a super weapon with full duration and put its type on cooldown. -/
def GameInfo.use_super_weapon (g : GameInfo) (type : SuperWeaponType) (player : ℕ)
    (x y : ℤ) : GameInfo :=
  { g with
    super_weapons := g.super_weapons ++ [mkSuperWeapon type player x y],
    super_weapon_cd := fun q c =>
      if q = player ∧ c = type.code then (SUPER_WEAPON_INFO type.code).2.2.1
      else g.super_weapon_cd q c }

/- Apply one previously validated operation: debit or credit the coins,
then perform the structural effect. -/
def GameInfo.apply_operation (g : GameInfo) (player : ℕ) (op : Operation) : GameInfo :=
  let g1 := g.update_coin player (g.get_operation_income player op)
  match op.type with
  | .BuildTower =>
    { g1 with
      towers := g1.towers ++ [mkTower g1.next_tower_id player op.arg0 op.arg1],
      next_tower_id := g1.next_tower_id + 1 }
  | .UpgradeTower =>
    { g1 with towers := upgradeTowerList op.arg0 (towerTypeOfCode op.arg1) g1.towers }
  | .DowngradeTower => { g1 with towers := downgradeTowerList op.arg0 g1.towers }
  | .UseLightningStorm | .UseEmpBlaster | .UseDeflector | .UseEmergencyEvasion =>
    g1.use_super_weapon (weaponOfCode (op.type.code % 10)) player op.arg0 op.arg1
  | .UpgradeGenerationSpeed =>
    if player = 0 then
      { g1 with base0 := { g1.base0 with gen_speed_level := g1.base0.gen_speed_level + 1 } }
    else { g1 with base1 := { g1.base1 with gen_speed_level := g1.base1.gen_speed_level + 1 } }
  | .UpgradeGeneratedAnt =>
    if player = 0 then
      { g1 with base0 := { g1.base0 with ant_level := g1.base0.ant_level + 1 } }
    else { g1 with base1 := { g1.base1 with ant_level := g1.base1.ant_level + 1 } }

/- Count down the remaining time of the given player's weapons, erasing
the expired ones. -/
def countdownWeapons (player : ℕ) : List SuperWeapon → List SuperWeapon
  | [] => []
  | w :: ws =>
    if w.player ≠ player then w :: countdownWeapons player ws
    else if w.left_time - 1 ≤ 0 then countdownWeapons player ws
    else { w with left_time := w.left_time - 1 } :: countdownWeapons player ws

def GameInfo.count_down_super_weapons_left_time (g : GameInfo) (player : ℕ) : GameInfo :=
  { g with super_weapons := countdownWeapons player g.super_weapons }

/- Storm pass over the ant list: every enemy ant in range is zeroed and
failed, its kill reward summed up for the owner. -/
def stormGo (w : SuperWeapon) : List Ant → List Ant × ℤ
  | [] => ([], 0)
  | a :: as =>
    let r := stormGo w as
    if w.is_in_range a.x a.y ∧ a.player ≠ w.player then
      ({ a with hp := 0, state := AntState.Fail } :: r.1, r.2 + a.reward)
    else (a :: r.1, r.2)

def evasionGo (w : SuperWeapon) (ants : List Ant) : List Ant :=
  ants.map (fun a =>
    if w.is_in_range a.x a.y ∧ a.player = w.player then { a with evasion := 2 } else a)

def applyActiveGo (player : ℕ) : List SuperWeapon → GameInfo → GameInfo
  | [], g => g
  | w :: ws, g =>
    if w.player ≠ player then applyActiveGo player ws g
    else if w.type = SuperWeaponType.LightningStorm then
      let r := stormGo w g.ants
      applyActiveGo player ws (GameInfo.update_coin { g with ants := r.1 } w.player r.2)
    else if w.type = SuperWeaponType.EmergencyEvasion then
      applyActiveGo player ws { g with ants := evasionGo w g.ants }
    else applyActiveGo player ws g

def GameInfo.apply_active_super_weapons (g : GameInfo) (player : ℕ) : GameInfo :=
  applyActiveGo player g.super_weapons g

def GameInfo.count_down_super_weapons_cd (g : GameInfo) : GameInfo :=
  { g with super_weapon_cd := fun q c =>
      if q < 2 ∧ 1 ≤ c ∧ c < 5 then max (g.super_weapon_cd q c - 1) 0
      else g.super_weapon_cd q c }

/- Navigation: attractiveness multipliers indexed by the distance delta
plus one. -/
def ETA (idx : ℤ) : ℚ :=
  if idx = 0 then mkRat 5 4 else if idx = 1 then 1 else if idx = 2 then mkRat 3 4 else 0

/- A direction is skipped when it would reverse the last recorded move
or when the destination is not a traversable path cell. -/
def Ant.dirBlocked (a : Ant) (i : ℕ) : Bool :=
  (match a.path.getLast? with
   | some b => b = (i + 3) % 6
   | none => false)
  || !is_path (a.x + (OFFSET (a.y % 2) i).1) (a.y + (OFFSET (a.y % 2) i).2)

/- The weighted and raw scent per direction; blocked directions keep the
initial (-1, -1) entry. -/
def pheroTable (g : GameInfo) (a : Ant) : List (ℚ × ℚ) :=
  let target := basePosition (1 - a.player)
  let cur_dist := distance a.x a.y target.1 target.2
  (List.range 6).map (fun i =>
    if a.dirBlocked i then (-1, -1)
    else
      let x := a.x + (OFFSET (a.y % 2) i).1
      let y := a.y + (OFFSET (a.y % 2) i).2
      let weight := ETA (distance x y target.1 target.2 - cur_dist + 1)
      (weight * g.pheromone a.player x y, g.pheromone a.player x y))

/- The comparator of the max_element call: weighted scent first, then
raw scent, then the smaller index wins. -/
def pheroLt (tbl : List (ℚ × ℚ)) (i j : ℕ) : Bool :=
  let a := tbl.getD i (0, 0)
  let b := tbl.getD j (0, 0)
  if a.1 ≠ b.1 then a.1 < b.1
  else if a.2 ≠ b.2 then a.2 < b.2
  else i > j

def maxPheroIdx (tbl : List (ℚ × ℚ)) : ℕ :=
  [1, 2, 3, 4, 5].foldl (fun best i => if pheroLt tbl best i then i else best) 0

def GameInfo.next_move (g : GameInfo) (a : Ant) : ℕ :=
  maxPheroIdx (pheroTable g a)

/- Outcome of one settlement step. -/
inductive GameState where
  | Player0Win
  | Player1Win
  | Running
  | Undecided
deriving DecidableEq, BEq, Repr

/- The simulation module: the world state plus both players staged
operation lists. -/
structure Simulator where
  info : GameInfo
  ops0 : List Operation
  ops1 : List Operation

def Simulator.operations (s : Simulator) (player : ℕ) : List Operation :=
  if player = 0 then s.ops0 else s.ops1

def Simulator.setOperations (s : Simulator) (player : ℕ) (ops : List Operation) : Simulator :=
  if player = 0 then { s with ops0 := ops } else { s with ops1 := ops }

def Simulator.has_build_tower_operation_at (s : Simulator) (player : ℕ) (x y : ℤ) : Bool :=
  (s.operations player).any (fun op =>
    op.type = OperationType.BuildTower ∧ op.arg0 = x ∧ op.arg1 = y)

def Simulator.has_upgrade_or_downgrade_tower_operation_of (s : Simulator) (player : ℕ)
    (tower_id : ℤ) : Bool :=
  (s.operations player).any (fun op =>
    (op.type = OperationType.UpgradeTower ∨ op.type = OperationType.DowngradeTower)
      ∧ op.arg0 = tower_id)

def Simulator.has_base_related_operation (s : Simulator) (player : ℕ) : Bool :=
  (s.operations player).any (fun op =>
    op.type = OperationType.UpgradeGeneratedAnt
      ∨ op.type = OperationType.UpgradeGenerationSpeed)

/- Staging entry point: the three one-per-target collision checks, the
per-op validity check, then affordability of the whole staged list with
the new op appended; the op is kept exactly when every check passes. -/
def Simulator.add_operation_of_player (s : Simulator) (player : ℕ) (op : Operation) :
    Bool × Simulator :=
  if op.type = OperationType.BuildTower
      ∧ s.has_build_tower_operation_at player op.arg0 op.arg1 then (false, s)
  else if (op.type = OperationType.UpgradeTower ∨ op.type = OperationType.DowngradeTower)
      ∧ s.has_upgrade_or_downgrade_tower_operation_of player op.arg0 then (false, s)
  else if (op.type = OperationType.UpgradeGeneratedAnt
        ∨ op.type = OperationType.UpgradeGenerationSpeed)
      ∧ s.has_base_related_operation player then (false, s)
  else if ¬s.info.is_operation_valid player op then (false, s)
  else if ¬s.info.check_affordable player (s.operations player ++ [op]) then (false, s)
  else (true, s.setOperations player (s.operations player ++ [op]))

/- Apply one player's staged operations: weapon timers count down, the
ops apply in order, then the active weapons fire. -/
def Simulator.apply_operations_of_player (s : Simulator) (player : ℕ) : Simulator :=
  let g1 := s.info.count_down_super_weapons_left_time player
  let g2 := (s.operations player).foldl (fun g op => g.apply_operation player op) g1
  { s with info := g2.apply_active_super_weapons player }

/- Reward collection after one tower attack: a coin bounty for every hit
ant that now has state Fail. -/
def rewardsGo (player : ℕ) : List ℕ → GameInfo → GameInfo
  | [], g => g
  | idx :: rest, g =>
    if (g.ants.getD idx default).state = AntState.Fail then
      rewardsGo player rest (g.update_coin player (g.ants.getD idx default).reward)
    else rewardsGo player rest g

/- The tower loop of the combat phase, threading ants and coins. -/
def attackTowersGo : List Tower → GameInfo → List Tower × GameInfo
  | [], g => ([], g)
  | t :: ts, g =>
    if g.is_shielded_by_emp t.player t.x t.y then
      let r := attackTowersGo ts g
      (t :: r.1, r.2)
    else
      let ar := t.attack g.ants
      let g1 := rewardsGo t.player ar.1 { g with ants := ar.2.2 }
      let t2 := { ar.2.1 with damage := (TOWER_INFO ar.2.1.type).attack }
      let r := attackTowersGo ts g1
      (t2 :: r.1, r.2)

/- Combat phase: mark the deflector flag on every ant, let each
non-shielded tower attack and collect bounties, clear the flags. -/
def GameInfo.attack_ants (g : GameInfo) : GameInfo :=
  let g1 := { g with ants := g.ants.map (fun a =>
      { a with deflector := g.is_shielded_by_deflector a }) }
  let r := attackTowersGo g1.towers g1
  let g2 := { r.2 with towers := r.1 }
  { g2 with ants := g2.ants.map (fun a => { a with deflector := false }) }

/- Steps 2 and 3 of the per-ant movement handling: mark a too old ant,
then move it along the chosen direction when it is still Alive. -/
def stepAnt (g : GameInfo) (a1 : Ant) : Ant :=
  let a2 := if a1.age > AGE_LIMIT then { a1 with state := AntState.TooOld } else a1
  if a2.state = AntState.Alive then a2.move (g.next_move a2) else a2

/- Step 5: a Frozen survivor thaws back to Alive. -/
def thawAnt (a : Ant) : Ant :=
  if a.state = AntState.Frozen then { a with state := AntState.Alive } else a

/- Movement phase loop. Each ant ages; Fail ants do nothing more; too
old ants are marked; Alive ants move along the chosen direction; an ant
on the enemy base scores, and a base dropping to zero ends the loop at
once; Frozen survivors thaw. -/
def moveAntsGo (g : GameInfo) : List Ant → List Ant → GameState × GameInfo
  | [], acc => (GameState.Running, { g with ants := acc })
  | a :: rest, acc =>
    let a1 := { a with age := a.age + 1 }
    if a1.state = AntState.Fail then moveAntsGo g rest (acc ++ [a1])
    else
      let a3 := stepAnt g a1
      if a3.x = (basePosition (1 - a3.player)).1 ∧ a3.y = (basePosition (1 - a3.player)).2 then
        let a4 := { a3 with state := AntState.Success }
        let g1 := g.update_base_hp (1 - a4.player) (-1)
        if (g1.bases (1 - a4.player)).hp ≤ 0 then
          ((if a4.player = 0 then GameState.Player0Win else GameState.Player1Win),
           { g1 with ants := acc ++ a4 :: rest })
        else moveAntsGo g1 rest (acc ++ [a4])
      else moveAntsGo g rest (acc ++ [thawAnt a3])

def GameInfo.move_ants (g : GameInfo) : GameState × GameInfo :=
  moveAntsGo g g.ants []

/- Spawning phase: base 0 first, then base 1. -/
def generateFromBase (b : Base) (g : GameInfo) : GameInfo :=
  match b.generate_ant g.next_ant_id g.round with
  | some a => { g with ants := g.ants ++ [a], next_ant_id := g.next_ant_id + 1 }
  | none => g

def GameInfo.generate_ants (g : GameInfo) : GameInfo :=
  generateFromBase g.base1 (generateFromBase g.base0 g)

/- Verdict at the round cap. -/
def GameInfo.judge_winner (g : GameInfo) : GameState :=
  if g.base0.hp < g.base1.hp then GameState.Player1Win
  else if g.base0.hp > g.base1.hp then GameState.Player0Win
  else GameState.Undecided

/- One full settlement: the round-cap early verdict, combat, movement
with its early win verdict, scent decay plus per-ant reinforcement,
cleanup, spawning, income, round increment, weapon cooldown decay, and
the staged lists cleared. -/
def Simulator.next_round (s : Simulator) : GameState × Simulator :=
  if s.info.round = MAX_ROUND then (s.info.judge_winner, s)
  else
    let g1 := s.info.attack_ants
    let mv := g1.move_ants
    if mv.1 ≠ GameState.Running then (mv.1, { s with info := mv.2 })
    else
      let g3 := mv.2.global_pheromone_attenuation.update_pheromone_for_ants
      let g4 := g3.clear_dead_and_succeeded_ants
      let g5 := g4.generate_ants
      let g6 := (g5.update_coin 0 BASIC_INCOME).update_coin 1 BASIC_INCOME
      let g7 := { g6 with round := g6.round + 1 }
      let g8 := g7.count_down_super_weapons_cd
      (GameState.Running, { info := g8, ops0 := [], ops1 := [] })

/- Concrete states used to exercise the theorems below. -/

def constPheroField : ℕ → ℤ → ℤ → ℚ := fun _ _ _ => 10

def zeroCdField : ℕ → ℤ → ℤ := fun _ _ => 0

/- A fresh world with no entities, used as a base for the scenarios. -/
def plainInfo : GameInfo :=
  { round := 0, towers := [], ants := [], base0 := Base.init 0, base1 := Base.init 1,
    coin0 := COIN_INIT, coin1 := COIN_INIT, pheromone := constPheroField,
    super_weapons := [], super_weapon_cd := zeroCdField, next_ant_id := 0, next_tower_id := 0 }

/- An Alive ant on the void corner cell (0, 0): none of its six neighbor
cells is a path cell, so no movement direction is eligible. -/
def boxedAnt : Ant :=
  { id := 0, player := 0, x := 0, y := 0, hp := 10, level := 0, age := 0, state := .Alive }

def boxedInfo : GameInfo := { plainInfo with ants := [boxedAnt], next_ant_id := 1 }

/- A player-0 Frozen ant already standing on the player-1 base cell,
with that base at zero HP. -/
def frozenAnt : Ant :=
  { id := 0, player := 0, x := 16, y := 9, hp := 10, level := 0, age := 0, state := .Frozen }

def drainedInfo : GameInfo :=
  { plainInfo with ants := [frozenAnt], base1 := { Base.init 1 with hp := 0 }, next_ant_id := 1 }

def drainedSim : Simulator := ⟨drainedInfo, [], []⟩

def healthySim : Simulator := ⟨boxedInfo, [], []⟩

/- Combat scenario: a ready player-0 Basic tower one cell away from a
freshly spawned tier-0 player-1 ant on the player-1 base cell. -/
def scenAnt : Ant :=
  { id := 0, player := 1, x := 16, y := 9, hp := 10, level := 0, age := 0, state := .Alive }

def scenTower : Tower :=
  { id := 0, player := 0, x := 15, y := 9, type := .Basic, damage := 5, range := 2,
    cd := 0, speed := 2 }

def scenInfo : GameInfo :=
  { plainInfo with towers := [scenTower], ants := [scenAnt], next_ant_id := 1, next_tower_id := 1 }

/- The same scenario with the ant already down to 5 HP, so that the one
Basic hit kills it. -/
def scenLowAnt : Ant := { scenAnt with hp := 5 }

def scenLowInfo : GameInfo := { scenInfo with ants := [scenLowAnt] }

/- A build operation on a free player-0 highland cell. -/
def buildOp : Operation := { type := .BuildTower, arg0 := 4, arg1 := 2 }

/- A rich player and a lightning storm use on a valid cell. -/
def richInfo : GameInfo := { plainInfo with coin0 := 300 }

def richSim : Simulator := ⟨richInfo, [], []⟩

def stormOp : Operation := { type := .UseLightningStorm, arg0 := 10, arg1 := 9 }

/- An active player-0 storm and a player-1 ant inside its range that is
already in a terminal state. -/
def activeStorm : SuperWeapon := mkSuperWeapon .LightningStorm 0 10 9

def stormAnt : Ant :=
  { id := 7, player := 1, x := 9, y := 9, hp := 25, level := 1, age := 3, state := .Success }

def stormInfo : GameInfo :=
  { plainInfo with super_weapons := [activeStorm], ants := [stormAnt], next_ant_id := 8 }

/- A world sitting exactly at the round cap with equal base HP. -/
def capSim : Simulator := ⟨{ plainInfo with round := 512 }, [], []⟩

/- A deflector test ant and tower pair. -/
def deflAnt : Ant :=
  { id := 1, player := 1, x := 8, y := 8, hp := 25, level := 1, age := 0, state := .Alive,
    path := [], evasion := 0, deflector := true }

def evadeAnt : Ant :=
  { id := 2, player := 1, x := 8, y := 8, hp := 25, level := 1, age := 0, state := .Alive,
    path := [], evasion := 2, deflector := false }

/-! Helper lemmas. -/

theorem valid_pos_bounds (x y : ℤ) (h : is_valid_pos x y = true) :
    0 ≤ x ∧ x < 19 ∧ 0 ≤ y ∧ y < 19 := by
  simp only [is_valid_pos, MAP_SIZE] at h
  split at h
  · cases h
  · rename_i hg
    push_neg at hg
    omega

theorem distance_self (x0 y0 : ℤ) : distance x0 y0 x0 y0 = 0 := by
  simp only [distance]
  split_ifs <;> omega

theorem distance_comm (x0 y0 x1 y1 : ℤ) : distance x0 y0 x1 y1 = distance x1 y1 x0 y0 := by
  simp only [distance]
  split_ifs <;> omega

theorem get_direction_even (x0 y0 x1 y1 : ℤ) (hp : y0 % 2 = 0) :
    get_direction x0 y0 x1 y1 ≠ -1 ↔
      (x1 - x0 = 0 ∧ y1 - y0 = 1) ∨ (x1 - x0 = -1 ∧ y1 - y0 = 0) ∨ (x1 - x0 = 0 ∧ y1 - y0 = -1)
      ∨ (x1 - x0 = 1 ∧ y1 - y0 = -1) ∨ (x1 - x0 = 1 ∧ y1 - y0 = 0)
      ∨ (x1 - x0 = 1 ∧ y1 - y0 = 1) := by
  unfold get_direction
  rw [hp]
  have h0 : OFFSET 0 0 = (0, 1) := rfl
  have h1 : OFFSET 0 1 = (-1, 0) := rfl
  have h2 : OFFSET 0 2 = (0, -1) := rfl
  have h3 : OFFSET 0 3 = (1, -1) := rfl
  have h4 : OFFSET 0 4 = (1, 0) := rfl
  have h5 : OFFSET 0 5 = (1, 1) := rfl
  rw [h0, h1, h2, h3, h4, h5]
  dsimp only
  split_ifs <;> omega

theorem get_direction_odd (x0 y0 x1 y1 : ℤ) (hp : y0 % 2 = 1) :
    get_direction x0 y0 x1 y1 ≠ -1 ↔
      (x1 - x0 = -1 ∧ y1 - y0 = 1) ∨ (x1 - x0 = -1 ∧ y1 - y0 = 0)
      ∨ (x1 - x0 = -1 ∧ y1 - y0 = -1) ∨ (x1 - x0 = 0 ∧ y1 - y0 = -1)
      ∨ (x1 - x0 = 1 ∧ y1 - y0 = 0) ∨ (x1 - x0 = 0 ∧ y1 - y0 = 1) := by
  unfold get_direction
  rw [hp]
  have h0 : OFFSET 1 0 = (-1, 1) := rfl
  have h1 : OFFSET 1 1 = (-1, 0) := rfl
  have h2 : OFFSET 1 2 = (-1, -1) := rfl
  have h3 : OFFSET 1 3 = (0, -1) := rfl
  have h4 : OFFSET 1 4 = (1, 0) := rfl
  have h5 : OFFSET 1 5 = (0, 1) := rfl
  rw [h0, h1, h2, h3, h4, h5]
  dsimp only
  split_ifs <;> omega

set_option maxHeartbeats 1600000 in
theorem distance_eq_one_iff (x0 y0 x1 y1 : ℤ) :
    distance x0 y0 x1 y1 = 1 ↔ get_direction x0 y0 x1 y1 ≠ -1 := by
  rcases Int.emod_two_eq_zero_or_one y0 with hp | hp
  · refine Iff.trans ?_ (get_direction_even x0 y0 x1 y1 hp).symm
    simp only [distance, hp]
    split_ifs <;> omega
  · refine Iff.trans ?_ (get_direction_odd x0 y0 x1 y1 hp).symm
    simp only [distance, hp]
    split_ifs <;> omega

/-! Claim theorems. -/

/-- C7: for valid board cells, the hex metric is zero on the diagonal
and symmetric, and distance one holds exactly for the six offset-table
neighbors, mutually in both directions. -/
theorem c7_distance_metric (x0 y0 x1 y1 : ℤ)
    (h0 : is_valid_pos x0 y0 = true) (h1 : is_valid_pos x1 y1 = true) :
    distance x0 y0 x0 y0 = 0 ∧
    distance x0 y0 x1 y1 = distance x1 y1 x0 y0 ∧
    (distance x0 y0 x1 y1 = 1 ↔ get_direction x0 y0 x1 y1 ≠ -1) ∧
    (distance x0 y0 x1 y1 = 1 → get_direction x1 y1 x0 y0 ≠ -1) := by
  refine ⟨distance_self x0 y0, distance_comm x0 y0 x1 y1, distance_eq_one_iff x0 y0 x1 y1, ?_⟩
  intro hd
  exact (distance_eq_one_iff x1 y1 x0 y0).mp ((distance_comm x1 y1 x0 y0).trans hd)

/-- C7 witness: the metric facts at the concrete valid cells (15, 9)
and (16, 9). -/
theorem c7_witness :
    distance 15 9 15 9 = 0 ∧
    distance 15 9 16 9 = distance 16 9 15 9 ∧
    (distance 15 9 16 9 = 1 ↔ get_direction 15 9 16 9 ≠ -1) ∧
    (distance 15 9 16 9 = 1 → get_direction 16 9 15 9 ≠ -1) :=
  c7_distance_metric 15 9 16 9 (by decide) (by decide)

/-- C8: the global attenuation maps every board cell intensity v to
0.97 v + 0.03 · 10; the baseline 10 is a fixed point, the distance to
the baseline shrinks by the factor 0.97 at each application, and a
value at or above the floor stays at or above the floor. -/
theorem c8_attenuation :
    (∀ (g : GameInfo) (q : ℕ) (x y : ℤ), q < 2 → 0 ≤ x → x < MAP_SIZE → 0 ≤ y → y < MAP_SIZE →
      g.global_pheromone_attenuation.pheromone q x y
        = (97 / 100) * g.pheromone q x y + (3 / 100) * 10) ∧
    attenuate PHEROMONE_INIT = PHEROMONE_INIT ∧
    (∀ v : ℚ, |attenuate v - PHEROMONE_INIT| = (97 / 100) * |v - PHEROMONE_INIT|) ∧
    (∀ v : ℚ, PHEROMONE_MIN ≤ v → PHEROMONE_MIN ≤ attenuate v) := by
  have hdec : PHEROMONE_DECAY = 97 / 100 := by
    rw [PHEROMONE_DECAY, Rat.mkRat_eq_div]
    norm_num
  refine ⟨?_, ?_, ?_, ?_⟩
  · intro g q x y hq hx hx' hy hy'
    simp only [GameInfo.global_pheromone_attenuation]
    rw [if_pos ⟨hq, hx, hx', hy, hy'⟩]
    simp only [attenuate, hdec, PHEROMONE_INIT]
    ring
  · simp only [attenuate, hdec, PHEROMONE_INIT]
    norm_num
  · intro v
    have he : attenuate v - PHEROMONE_INIT = (97 / 100) * (v - PHEROMONE_INIT) := by
      simp only [attenuate, hdec, PHEROMONE_INIT]
      ring
    rw [he, abs_mul]
    norm_num
  · intro v hv
    simp only [attenuate, hdec, PHEROMONE_INIT, PHEROMONE_MIN] at hv ⊢
    nlinarith

/-- C8 witness: the attenuation facts evaluated at one concrete cell of
the fresh world and at the concrete value 0. -/
theorem c8_witness :
    plainInfo.global_pheromone_attenuation.pheromone 0 3 3
      = (97 / 100) * plainInfo.pheromone 0 3 3 + (3 / 100) * 10 ∧
    (PHEROMONE_MIN ≤ (0 : ℚ) ∧ PHEROMONE_MIN ≤ attenuate 0) :=
  ⟨c8_attenuation.1 plainInfo 0 3 3 (by norm_num) (by norm_num) (by decide)
      (by norm_num) (by decide),
   by norm_num [PHEROMONE_MIN], c8_attenuation.2.2.2 0 (by norm_num [PHEROMONE_MIN])⟩

/-- C2: at the round cap the settlement returns the judged verdict at
once and leaves the whole state unchanged; lower base-0 HP gives
Player1Win, higher gives Player0Win, equal gives Undecided. -/
theorem c2_round_cap_verdict (s : Simulator) (h : s.info.round = MAX_ROUND) :
    s.next_round = (s.info.judge_winner, s) ∧
    (s.info.base0.hp < s.info.base1.hp → s.next_round.1 = GameState.Player1Win) ∧
    (s.info.base1.hp < s.info.base0.hp → s.next_round.1 = GameState.Player0Win) ∧
    (s.info.base0.hp = s.info.base1.hp → s.next_round.1 = GameState.Undecided) := by
  have he : s.next_round = (s.info.judge_winner, s) := by
    simp only [Simulator.next_round]
    rw [if_pos h]
  refine ⟨he, ?_, ?_, ?_⟩ <;> intro hcmp <;> rw [he] <;>
    simp only [GameInfo.judge_winner] <;> split_ifs <;> first | rfl | omega

/-- C2 witness: the round-cap verdict at a concrete capped world with
equal base HP. -/
theorem c2_witness :
    capSim.next_round = (capSim.info.judge_winner, capSim) ∧
    (capSim.info.base0.hp = capSim.info.base1.hp →
      capSim.next_round.1 = GameState.Undecided) :=
  ⟨(c2_round_cap_verdict capSim (by decide)).1,
   (c2_round_cap_verdict capSim (by decide)).2.2.2⟩

/-- C5: on a hit with no evasion charge and the deflector flag set the
ant takes no damage exactly below the integer half of its max HP and
full damage otherwise; a hit on an ant with a positive evasion counter
deals no damage and consumes exactly one evasion use. -/
theorem c5_deflector_evasion_semantics (t : Tower) (a : Ant) :
    (a.evasion = 0 → a.deflector = true →
      ((t.damage < a.max_hp / 2 → t.action a = a) ∧
       (a.max_hp / 2 ≤ t.damage → (t.action a).hp = a.hp - t.damage))) ∧
    (0 < a.evasion → t.action a = { a with evasion := a.evasion - 1 }) := by
  constructor
  · intro hev hdef
    constructor
    · intro hlt
      simp only [Tower.action]
      rw [if_neg (by omega), if_pos ⟨hdef, hlt⟩]
    · intro hge
      simp only [Tower.action]
      rw [if_neg (by omega), if_neg (by intro hc; exact absurd hc.2 (by omega))]
      split_ifs <;> simp
  · intro hev
    simp only [Tower.action]
    rw [if_pos hev]

/-- C5 witness: the deflector negation and the evasion consumption at
concrete ants facing the Basic tower of the combat scenario. -/
theorem c5_witness :
    (scenTower.damage < deflAnt.max_hp / 2 ∧ scenTower.action deflAnt = deflAnt) ∧
    (0 < evadeAnt.evasion ∧
      scenTower.action evadeAnt = { evadeAnt with evasion := evadeAnt.evasion - 1 }) :=
  ⟨⟨by decide,
    ((c5_deflector_evasion_semantics scenTower deflAnt).1 (by decide) (by decide)).1 (by decide)⟩,
   ⟨by decide, (c5_deflector_evasion_semantics scenTower evadeAnt).2 (by decide)⟩⟩

theorem powQ_eq_pow (q : ℚ) (m : ℕ) : powQ q m = q ^ m := by
  induction m with
  | zero => simp [powQ]
  | succ n ih => rw [powQ, ih, pow_succ]; ring

theorem ratTrunc_intCast (z : ℤ) : ratTrunc (z : ℚ) = z := by
  simp [ratTrunc]

theorem build_tower_cost_of_nonneg (n : ℤ) (h : 0 ≤ n) :
    build_tower_cost n = 15 * 2 ^ n.toNat := by
  obtain ⟨m, rfl⟩ : ∃ m : ℕ, n = (m : ℤ) := ⟨n.toNat, by omega⟩
  simp only [build_tower_cost, zpowQ, TOWER_BUILD_PRICE_BASE, TOWER_BUILD_PRICE_RATE]
  rw [if_pos (by omega : (0 : ℤ) ≤ (m : ℤ))]
  rw [show ((m : ℤ)).toNat = m from by omega, powQ_eq_pow,
    show ((15 : ℤ) : ℚ) * ((2 : ℤ) : ℚ) ^ m = (((15 * 2 ^ m : ℤ)) : ℚ) by push_cast; ring,
    ratTrunc_intCast]

theorem affordGo_replicate_build (g : GameInfo) (p : ℕ) :
    ∀ (k : ℕ) (income tn : ℤ), 0 ≤ tn →
      affordGo g p income tn (List.replicate k buildOp)
        = income - 15 * 2 ^ tn.toNat * (2 ^ k - 1) := by
  intro k
  induction k with
  | zero =>
    intro income tn _
    rw [show affordGo g p income tn (List.replicate 0 buildOp) = income from rfl]
    ring
  | succ k ih =>
    intro income tn h
    rw [List.replicate_succ,
      show affordGo g p income tn (buildOp :: List.replicate k buildOp)
        = affordGo g p (income - build_tower_cost tn) (tn + 1) (List.replicate k buildOp)
        from rfl,
      ih _ _ (by omega), build_tower_cost_of_nonneg tn h,
      show (tn + 1).toNat = tn.toNat + 1 from by omega]
    ring

/-- C3: affordability folds the staged ops against a running tower
count — a staged Basic-tower downgrade credits the destroy refund of
the running count and then decrements it, and k staged builds from
zero towers cost 15 (2^k - 1) in total and are accepted exactly when
the balance covers that amount; in the concrete scenario with 50 coins
the build prices run 15, 30, 60, two builds pass and the third fails
despite being individually valid. -/
theorem c3_staged_affordability :
    (∀ (g : GameInfo) (p : ℕ) (income tn : ℤ) (rest : List Operation) (id : ℤ),
      ((g.tower_of_id id).getD default).type = TowerType.Basic →
      affordGo g p income tn ({ type := .DowngradeTower, arg0 := id } :: rest)
        = affordGo g p (income + destroy_tower_income tn) (tn - 1) rest) ∧
    (∀ (g : GameInfo) (p : ℕ) (k : ℕ), g.tower_num_of_player p = 0 →
      (g.check_affordable p (List.replicate k buildOp) = true ↔
        15 * (2 ^ k - 1) ≤ g.coins p)) ∧
    (build_tower_cost 0 = 15 ∧ build_tower_cost 1 = 30 ∧ build_tower_cost 2 = 60 ∧
     plainInfo.is_operation_valid 0 buildOp = true ∧
     plainInfo.check_affordable 0 [buildOp] = true ∧
     plainInfo.check_affordable 0 [buildOp, buildOp] = true ∧
     plainInfo.check_affordable 0 (List.replicate 3 buildOp) = false) := by
  have hnum : plainInfo.tower_num_of_player 0 = 0 := rfl
  refine ⟨?_, ?_, ?_, ?_, ?_, ?_, ?_, ?_, ?_⟩
  · intro g p income tn rest id h
    simp only [affordGo]
    rw [if_pos h]
  · intro g p k h
    simp only [GameInfo.check_affordable, h]
    rw [affordGo_replicate_build g p k 0 0 le_rfl]
    simp only [decide_eq_true_eq, Int.toNat_zero, pow_zero]
    constructor <;> intro hh <;> linarith
  · rw [build_tower_cost_of_nonneg 0 le_rfl]; decide
  · rw [build_tower_cost_of_nonneg 1 (by norm_num)]; decide
  · rw [build_tower_cost_of_nonneg 2 (by norm_num)]; decide
  · decide
  · rw [show [buildOp] = List.replicate 1 buildOp from rfl]
    simp only [GameInfo.check_affordable, hnum]
    rw [affordGo_replicate_build plainInfo 0 1 0 0 le_rfl]
    decide
  · rw [show [buildOp, buildOp] = List.replicate 2 buildOp from rfl]
    simp only [GameInfo.check_affordable, hnum]
    rw [affordGo_replicate_build plainInfo 0 2 0 0 le_rfl]
    decide
  · simp only [GameInfo.check_affordable, hnum]
    rw [affordGo_replicate_build plainInfo 0 3 0 0 le_rfl]
    decide

/-- C3 witness: the general affordability formula applied at the
concrete scenario world with three staged builds. -/
theorem c3_witness :
    plainInfo.tower_num_of_player 0 = 0 ∧
    (plainInfo.check_affordable 0 (List.replicate 3 buildOp) = true ↔
      15 * (2 ^ 3 - 1) ≤ plainInfo.coins 0) :=
  ⟨rfl, c3_staged_affordability.2.1 plainInfo 0 3 rfl⟩

/-- C1 (amended): when every neighbor direction of an Alive ant is
ineligible, the source does not stall the ant; the scent table keeps
its six sentinel entries, the max scan returns direction 0, and the
movement phase still moves the ant one step in direction 0, appending
0 to its path while the age increments. -/
theorem c1_blocked_ant_moves_dir_zero :
    (∀ (g : GameInfo) (a : Ant), (∀ i, i < 6 → a.dirBlocked i = true) → g.next_move a = 0) ∧
    (boxedInfo.move_ants.1 = GameState.Running ∧
     boxedInfo.move_ants.2.ants = [{ boxedAnt with age := 1, y := 1, path := [0] }]) := by
  constructor
  · intro g a h
    have e : pheroTable g a = List.replicate 6 ((-1 : ℚ), (-1 : ℚ)) := by
      simp only [pheroTable]
      rw [show List.range 6 = [0, 1, 2, 3, 4, 5] from rfl]
      simp [h 0 (by omega), h 1 (by omega), h 2 (by omega), h 3 (by omega),
        h 4 (by omega), h 5 (by omega), List.replicate]
    show maxPheroIdx (pheroTable g a) = 0
    rw [e]
    decide
  · exact ⟨by decide, by decide⟩

/-- C1 counterexample: the concrete Alive ant at (0, 0) has no eligible
direction, yet the movement phase changes its position and appends a
step to its path. -/
theorem c1_counterexample :
    ((List.range 6).all (fun i => boxedAnt.dirBlocked i)) = true ∧
    boxedAnt.state = AntState.Alive ∧
    boxedInfo.ants = [boxedAnt] ∧
    boxedInfo.move_ants.2.ants = [{ boxedAnt with age := 1, y := 1, path := [0] }] ∧
    ({ boxedAnt with age := 1, y := 1, path := [0] } : Ant).y ≠ boxedAnt.y ∧
    ({ boxedAnt with age := 1, y := 1, path := [0] } : Ant).path ≠ boxedAnt.path :=
  ⟨by decide, by decide, by decide, by decide, by decide, by decide⟩

/-- C1 witness: the amended navigation fact applied at the concrete
boxed-in ant. -/
theorem c1_witness :
    ((List.range 6).all (fun i => boxedAnt.dirBlocked i)) = true ∧
    boxedInfo.next_move boxedAnt = 0 :=
  ⟨by decide, c1_blocked_ant_moves_dir_zero.1 boxedInfo boxedAnt
    (by intro i hi; interval_cases i <;> decide)⟩

/-- C4: a tower resets its cooldown exactly when its attack hit at
least one ant, and in the scenario of a ready Basic tower next to a
fresh tier-0 enemy ant one combat phase resets the cooldown and takes
exactly the Basic damage off the ant; with the ant low enough to die
the hit sets Fail and pays the tier-0 kill reward to the owner. -/
theorem c4_cooldown_and_combat_scenario :
    (∀ (t : Tower) (ants : List Ant),
      ((t.attack ants).1 = [] → (t.attack ants).2.1.cd = max (t.cd - 1) 0) ∧
      ((t.attack ants).1 ≠ [] → (t.attack ants).2.1.cd = resetCdValue t.speed)) ∧
    (scenInfo.attack_ants.towers = [{ scenTower with cd := 2 }] ∧
     scenInfo.attack_ants.ants
       = [{ scenAnt with hp := scenAnt.hp - (TOWER_INFO TowerType.Basic).attack }] ∧
     scenInfo.attack_ants.coin0 = plainInfo.coin0 ∧
     scenLowInfo.attack_ants.ants = [{ scenLowAnt with hp := 0, state := AntState.Fail }] ∧
     scenLowInfo.attack_ants.coin0 = plainInfo.coin0 + REWARD_INFO 0) := by
  constructor
  · intro t ants
    simp only [Tower.attack]
    split_ifs <;> refine ⟨fun h => ?_, fun h => ?_⟩ <;>
      first | rfl | simp_all [List.isEmpty_iff]
  · exact ⟨by decide, by decide, by decide, by decide, by decide⟩

/-- C4 witness: the cooldown fact applied to the scenario tower facing
no ants at all: nothing is hit and the cooldown is merely counted
down. -/
theorem c4_witness :
    (scenTower.attack []).1 = [] ∧ (scenTower.attack []).2.1.cd = max (scenTower.cd - 1) 0 :=
  ⟨by decide, (c4_cooldown_and_combat_scenario.1 scenTower []).1 (by decide)⟩

theorem setOperations_info (s : Simulator) (p : ℕ) (ops : List Operation) :
    (s.setOperations p ops).info = s.info := by
  by_cases hp : p = 0 <;> simp [Simulator.setOperations, hp]

theorem operations_setOperations_self (s : Simulator) (p : ℕ) (ops : List Operation) :
    (s.setOperations p ops).operations p = ops := by
  by_cases hp : p = 0 <;> simp [Simulator.setOperations, Simulator.operations, hp]

/-- C6 (amended): staging an operation through the simulation module
fails exactly on a collision with one of the three checked one-per-
target classes (a build at the same cell, an upgrade or downgrade
naming the same tower id, a second base upgrade), on per-op
invalidity, or on unaffordability of the staged list including the new
op — reuse of the same superweapon type is not checked; a failed add
leaves the staged list and the world state unchanged, a successful add
appends exactly the new op and also leaves the world state
unchanged. -/
theorem c6_add_operation_characterization (s : Simulator) (p : ℕ) (op : Operation) :
    ((s.add_operation_of_player p op).1 = true ↔
      (¬(op.type = OperationType.BuildTower
          ∧ s.has_build_tower_operation_at p op.arg0 op.arg1 = true) ∧
       ¬((op.type = OperationType.UpgradeTower ∨ op.type = OperationType.DowngradeTower)
          ∧ s.has_upgrade_or_downgrade_tower_operation_of p op.arg0 = true) ∧
       ¬((op.type = OperationType.UpgradeGeneratedAnt
            ∨ op.type = OperationType.UpgradeGenerationSpeed)
          ∧ s.has_base_related_operation p = true) ∧
       s.info.is_operation_valid p op = true ∧
       s.info.check_affordable p (s.operations p ++ [op]) = true)) ∧
    ((s.add_operation_of_player p op).2.info = s.info) ∧
    ((s.add_operation_of_player p op).1 = false → (s.add_operation_of_player p op).2 = s) ∧
    ((s.add_operation_of_player p op).1 = true →
      (s.add_operation_of_player p op).2.operations p = s.operations p ++ [op]) := by
  simp only [Simulator.add_operation_of_player]
  split_ifs with h1 h2 h3 h4 h5 <;>
    refine ⟨⟨fun hf => ?_, fun r => ?_⟩, ?_, fun hf2 => ?_, fun ht => ?_⟩ <;>
      first
        | rfl
        | exact setOperations_info s p _
        | exact operations_setOperations_self s p _
        | exact ⟨h1, h2, h3, h4, h5⟩
        | exact absurd h1 r.1
        | exact absurd h2 r.2.1
        | exact absurd h3 r.2.2.1
        | exact absurd r.2.2.2.1 h4
        | exact absurd r.2.2.2.2 h5
        | exact absurd hf (by simp)
        | exact absurd hf2 (by simp)
        | exact absurd ht (by simp)

/-- C6 counterexample: with enough coins, staging the same lightning
storm operation twice in one round succeeds both times — the same-
superweapon-type collision class of the claim is not rejected by the
staging entry point. -/
theorem c6_counterexample :
    (richSim.add_operation_of_player 0 stormOp).1 = true ∧
    (richSim.add_operation_of_player 0 stormOp).2.operations 0 = [stormOp] ∧
    ((richSim.add_operation_of_player 0 stormOp).2.add_operation_of_player 0 stormOp).1
      = true ∧
    ((richSim.add_operation_of_player 0 stormOp).2.add_operation_of_player 0
        stormOp).2.operations 0 = [stormOp, stormOp] :=
  ⟨by decide, by decide, by decide, by decide⟩

/-- C6 witness: the characterization applied to the concrete rich
world staging one storm. -/
theorem c6_witness :
    (richSim.add_operation_of_player 0 stormOp).1 = true ∧
    (richSim.add_operation_of_player 0 stormOp).2.operations 0
      = richSim.operations 0 ++ [stormOp] := by
  have h := c6_add_operation_characterization richSim 0 stormOp
  have ht : (richSim.add_operation_of_player 0 stormOp).1 = true := h.1.mpr (by decide)
  exact ⟨ht, h.2.2.2 ht⟩

theorem update_coin_ants (g : GameInfo) (p : ℕ) (c : ℤ) :
    (g.update_coin p c).ants = g.ants := by
  by_cases hp : p = 0 <;> simp [GameInfo.update_coin, hp]

theorem update_coin_coins_self (g : GameInfo) (p : ℕ) (c : ℤ) :
    (g.update_coin p c).coins p = g.coins p + c := by
  by_cases hp : p = 0 <;> simp [GameInfo.update_coin, GameInfo.coins, hp]

theorem stormGo_ants (w : SuperWeapon) :
    ∀ ants : List Ant,
      (stormGo w ants).1 = ants.map (fun a =>
        if w.is_in_range a.x a.y ∧ a.player ≠ w.player then
          { a with hp := 0, state := AntState.Fail }
        else a) := by
  intro ants
  induction ants with
  | nil => rfl
  | cons a as ih =>
    simp only [stormGo, List.map_cons]
    split_ifs with hc <;> simp [ih]

theorem stormGo_coins (w : SuperWeapon) :
    ∀ ants : List Ant,
      (stormGo w ants).2 = ((ants.filter
        (fun a => decide (w.is_in_range a.x a.y ∧ a.player ≠ w.player))).map Ant.reward).sum := by
  intro ants
  induction ants with
  | nil => rfl
  | cons a as ih =>
    simp only [stormGo, List.filter_cons]
    by_cases hc : w.is_in_range a.x a.y ∧ a.player ≠ w.player
    · rw [if_pos hc, if_pos (decide_eq_true hc)]
      simp [ih]
      omega
    · rw [if_neg hc, if_neg (by simpa using hc)]
      simp [ih]

/-- C9: while a player has an active lightning storm, one application
of the active superweapons sets HP to 0 and state to Fail for every
enemy ant in the storm range, with no regard to the ant's prior state
or HP, and pays the owner the kill reward of every such ant; the storm
is created with its full 20-round duration and the per-round countdown
keeps it alive, one round shorter, as long as time remains. -/
theorem c9_lightning_storm :
    (∀ (g : GameInfo) (w : SuperWeapon) (p : ℕ),
      g.super_weapons = [w] → w.type = SuperWeaponType.LightningStorm → w.player = p →
      (g.apply_active_super_weapons p).ants
        = g.ants.map (fun a =>
            if w.is_in_range a.x a.y ∧ a.player ≠ p then
              { a with hp := 0, state := AntState.Fail }
            else a) ∧
      (g.apply_active_super_weapons p).coins p
        = g.coins p + ((g.ants.filter
            (fun a => decide (w.is_in_range a.x a.y ∧ a.player ≠ p))).map Ant.reward).sum) ∧
    (mkSuperWeapon SuperWeaponType.LightningStorm 0 0 0).left_time = 20 ∧
    (∀ (g : GameInfo) (w : SuperWeapon) (p : ℕ),
      g.super_weapons = [w] → w.player = p → 2 ≤ w.left_time →
      (g.count_down_super_weapons_left_time p).super_weapons
        = [{ w with left_time := w.left_time - 1 }]) := by
  refine ⟨?_, rfl, ?_⟩
  · intro g w p hsw hty hpl
    subst hpl
    have happ : g.apply_active_super_weapons w.player
        = GameInfo.update_coin { g with ants := (stormGo w g.ants).1 } w.player
            (stormGo w g.ants).2 := by
      simp only [GameInfo.apply_active_super_weapons, hsw, applyActiveGo]
      rw [if_neg (by simp), if_pos hty]
    constructor
    · rw [happ, update_coin_ants]
      exact stormGo_ants w g.ants
    · rw [happ, update_coin_coins_self]
      have : GameInfo.coins { g with ants := (stormGo w g.ants).1 } w.player
          = g.coins w.player := rfl
      rw [this, stormGo_coins w g.ants]
  · intro g w p hsw hpl hlt
    subst hpl
    simp only [GameInfo.count_down_super_weapons_left_time, hsw, countdownWeapons]
    rw [if_neg (by simp), if_neg (by omega)]

/-- C9 witness: the storm effect at the concrete active-storm world,
where the ant inside the range is already in a terminal state and is
still zeroed, failed and paid for. -/
theorem c9_witness :
    (stormInfo.apply_active_super_weapons 0).ants
      = stormInfo.ants.map (fun a =>
          if activeStorm.is_in_range a.x a.y ∧ a.player ≠ 0 then
            { a with hp := 0, state := AntState.Fail }
          else a) ∧
    (stormInfo.apply_active_super_weapons 0).coins 0
      = stormInfo.coins 0 + ((stormInfo.ants.filter
          (fun a => decide (activeStorm.is_in_range a.x a.y ∧ a.player ≠ 0))).map
            Ant.reward).sum :=
  c9_lightning_storm.1 stormInfo activeStorm 0 rfl rfl rfl

theorem update_coin_base0 (g : GameInfo) (p : ℕ) (c : ℤ) :
    (g.update_coin p c).base0 = g.base0 := by
  by_cases hp : p = 0 <;> simp [GameInfo.update_coin, hp]

theorem update_coin_base1 (g : GameInfo) (p : ℕ) (c : ℤ) :
    (g.update_coin p c).base1 = g.base1 := by
  by_cases hp : p = 0 <;> simp [GameInfo.update_coin, hp]

theorem rewardsGo_bases (p : ℕ) :
    ∀ (idxs : List ℕ) (g : GameInfo),
      (rewardsGo p idxs g).base0 = g.base0 ∧ (rewardsGo p idxs g).base1 = g.base1 := by
  intro idxs
  induction idxs with
  | nil => intro g; exact ⟨rfl, rfl⟩
  | cons i is ih =>
    intro g
    simp only [rewardsGo]
    split_ifs with hc
    · exact ⟨((ih _).1).trans (update_coin_base0 _ _ _), ((ih _).2).trans (update_coin_base1 _ _ _)⟩
    · exact ih g

theorem attackTowersGo_bases :
    ∀ (ts : List Tower) (g : GameInfo),
      (attackTowersGo ts g).2.base0 = g.base0 ∧ (attackTowersGo ts g).2.base1 = g.base1 := by
  intro ts
  induction ts with
  | nil => intro g; exact ⟨rfl, rfl⟩
  | cons t ts ih =>
    intro g
    simp only [attackTowersGo]
    split_ifs with hemp
    · exact ih g
    · exact ⟨((ih _).1).trans (rewardsGo_bases _ _ _).1, ((ih _).2).trans (rewardsGo_bases _ _ _).2⟩

theorem attack_ants_bases (g : GameInfo) :
    g.attack_ants.base0 = g.base0 ∧ g.attack_ants.base1 = g.base1 :=
  ⟨(attackTowersGo_bases _ _).1, (attackTowersGo_bases _ _).2⟩

theorem update_base_hp_parts (g : GameInfo) (q : ℕ) (c : ℤ) :
    (g.update_base_hp q c).base0.hp = (if q = 0 then g.base0.hp + c else g.base0.hp) ∧
    (g.update_base_hp q c).base1.hp = (if q = 0 then g.base1.hp else g.base1.hp + c) := by
  by_cases hq : q = 0 <;> simp [GameInfo.update_base_hp, hq]

theorem bases_hp_of_q (g : GameInfo) (q : ℕ) :
    (g.bases q).hp = (if q = 0 then g.base0.hp else g.base1.hp) := by
  by_cases hq : q = 0 <;> simp [GameInfo.bases, hq]

theorem moveAntsGo_hp :
    ∀ (ants acc : List Ant) (g : GameInfo), 1 ≤ g.base0.hp → 1 ≤ g.base1.hp →
      0 ≤ (moveAntsGo g ants acc).2.base0.hp ∧ 0 ≤ (moveAntsGo g ants acc).2.base1.hp := by
  intro ants
  induction ants with
  | nil =>
    intro acc g h0 h1
    exact ⟨by show (0 : ℤ) ≤ g.base0.hp; omega, by show (0 : ℤ) ≤ g.base1.hp; omega⟩
  | cons a rest ih =>
    intro acc g h0 h1
    simp only [moveAntsGo]
    split_ifs with hfail hbase hzero hv
    · exact ih _ _ h0 h1
    · have hb := update_base_hp_parts g (1 - (stepAnt g { a with age := a.age + 1 }).player) (-1)
      constructor
      · show 0 ≤ (g.update_base_hp (1 - (stepAnt g { a with age := a.age + 1 }).player)
          (-1)).base0.hp
        rw [hb.1]
        split_ifs <;> omega
      · show 0 ≤ (g.update_base_hp (1 - (stepAnt g { a with age := a.age + 1 }).player)
          (-1)).base1.hp
        rw [hb.2]
        split_ifs <;> omega
    · have hb := update_base_hp_parts g (1 - (stepAnt g { a with age := a.age + 1 }).player) (-1)
      constructor
      · show 0 ≤ (g.update_base_hp (1 - (stepAnt g { a with age := a.age + 1 }).player)
          (-1)).base0.hp
        rw [hb.1]
        split_ifs <;> omega
      · show 0 ≤ (g.update_base_hp (1 - (stepAnt g { a with age := a.age + 1 }).player)
          (-1)).base1.hp
        rw [hb.2]
        split_ifs <;> omega
    · have hb := update_base_hp_parts g (1 - (stepAnt g { a with age := a.age + 1 }).player) (-1)
      rw [bases_hp_of_q, hb.1, hb.2] at hzero
      refine ih _ _ ?_ ?_
      · rw [hb.1]
        split_ifs at hzero ⊢ <;> omega
      · rw [hb.2]
        split_ifs at hzero ⊢ <;> omega
    · exact ih _ _ h0 h1

theorem update_pheromone_bases (g : GameInfo) (a : Ant) :
    (g.update_pheromone a).base0 = g.base0 ∧ (g.update_pheromone a).base1 = g.base1 := by
  simp only [GameInfo.update_pheromone]
  split_ifs <;> exact ⟨rfl, rfl⟩

theorem update_pheromone_for_ants_bases :
    ∀ (l : List Ant) (g : GameInfo),
      (l.foldl (fun acc a => acc.update_pheromone a) g).base0 = g.base0 ∧
      (l.foldl (fun acc a => acc.update_pheromone a) g).base1 = g.base1 := by
  intro l
  induction l with
  | nil => intro g; exact ⟨rfl, rfl⟩
  | cons a as ih =>
    intro g
    simp only [List.foldl_cons]
    exact ⟨((ih _).1).trans (update_pheromone_bases g a).1,
      ((ih _).2).trans (update_pheromone_bases g a).2⟩

theorem generateFromBase_bases (b : Base) (g : GameInfo) :
    (generateFromBase b g).base0 = g.base0 ∧ (generateFromBase b g).base1 = g.base1 := by
  cases h : b.generate_ant g.next_ant_id g.round <;> simp [generateFromBase, h]

theorem generate_ants_bases (g : GameInfo) :
    g.generate_ants.base0 = g.base0 ∧ g.generate_ants.base1 = g.base1 :=
  ⟨((generateFromBase_bases _ _).1).trans (generateFromBase_bases _ _).1,
   ((generateFromBase_bases _ _).2).trans (generateFromBase_bases _ _).2⟩

theorem pipeTail_bases (g : GameInfo) :
    ((((g.global_pheromone_attenuation.update_pheromone_for_ants).clear_dead_and_succeeded_ants.generate_ants).update_coin
        0 BASIC_INCOME).update_coin 1 BASIC_INCOME).base0 = g.base0 ∧
    ((((g.global_pheromone_attenuation.update_pheromone_for_ants).clear_dead_and_succeeded_ants.generate_ants).update_coin
        0 BASIC_INCOME).update_coin 1 BASIC_INCOME).base1 = g.base1 := by
  constructor
  · rw [update_coin_base0, update_coin_base0, (generate_ants_bases _).1]
    show (g.global_pheromone_attenuation.update_pheromone_for_ants).base0 = g.base0
    exact (update_pheromone_for_ants_bases _ _).1
  · rw [update_coin_base1, update_coin_base1, (generate_ants_bases _).2]
    show (g.global_pheromone_attenuation.update_pheromone_for_ants).base1 = g.base1
    exact (update_pheromone_for_ants_bases _ _).2

/-- C10 (amended): from a state in which both bases have at least 1 HP,
one settlement keeps both base HP values at or above 0: the movement
phase takes one HP per scoring ant and returns the win verdict the
moment a base reaches zero, and no other phase touches base HP. At a
boundary state where a base already has exactly 0 HP, one more scoring
ant drives it to -1, so the hypothesis of at least 1 HP is needed. -/
theorem c10_positive_base_hp_preserved (s : Simulator)
    (h0 : 1 ≤ s.info.base0.hp) (h1 : 1 ≤ s.info.base1.hp) :
    0 ≤ s.next_round.2.info.base0.hp ∧ 0 ≤ s.next_round.2.info.base1.hp := by
  simp only [Simulator.next_round]
  split_ifs with hcap hrun
  · exact ⟨by show (0 : ℤ) ≤ s.info.base0.hp; omega,
      by show (0 : ℤ) ≤ s.info.base1.hp; omega⟩
  · have ha := attack_ants_bases s.info
    have hm := moveAntsGo_hp s.info.attack_ants.ants [] s.info.attack_ants
      (by rw [ha.1]; omega) (by rw [ha.2]; omega)
    exact ⟨hm.1, hm.2⟩
  · have ha := attack_ants_bases s.info
    have hm := moveAntsGo_hp s.info.attack_ants.ants [] s.info.attack_ants
      (by rw [ha.1]; omega) (by rw [ha.2]; omega)
    constructor
    · show (0 : ℤ) ≤
        (((((s.info.attack_ants.move_ants).2.global_pheromone_attenuation.update_pheromone_for_ants).clear_dead_and_succeeded_ants.generate_ants).update_coin
            0 BASIC_INCOME).update_coin 1 BASIC_INCOME).base0.hp
      rw [(pipeTail_bases _).1]
      exact hm.1
    · show (0 : ℤ) ≤
        (((((s.info.attack_ants.move_ants).2.global_pheromone_attenuation.update_pheromone_for_ants).clear_dead_and_succeeded_ants.generate_ants).update_coin
            0 BASIC_INCOME).update_coin 1 BASIC_INCOME).base1.hp
      rw [(pipeTail_bases _).2]
      exact hm.2

/-- C10 counterexample: from a state where player-1's base already sits
at 0 HP and a Frozen player-0 ant stands on that base cell, one
settlement drives the base HP to -1, so HP at or above 0 alone is not
preserved. -/
theorem c10_counterexample :
    (0 ≤ drainedInfo.base0.hp ∧ 0 ≤ drainedInfo.base1.hp) ∧
    drainedSim.next_round.1 = GameState.Player0Win ∧
    drainedSim.next_round.2.info.base1.hp = -1 :=
  ⟨⟨by decide, by decide⟩, by decide, by decide⟩

/-- C10 witness: the amended preservation applied at a concrete healthy
world. -/
theorem c10_witness :
    0 ≤ healthySim.next_round.2.info.base0.hp ∧
    0 ≤ healthySim.next_round.2.info.base1.hp :=
  c10_positive_base_hp_preserved healthySim (by decide) (by decide)

end AntWar
